import Mathlib

/-!
Verification of the chat-bot's request-resolution and response-composition
pipeline (src/main.py) against its natural-language specification.

Python strings are embedded as Lean `String` values, with Python's
code-point level operations (slicing, join, lower, strip, membership)
modelled explicitly over `String.data` so every definition is executable
and kernel-reducible.  Fallible external calls (Telegram sends, Last.fm
lookups, Spotify searches) are modelled by explicit outcome parameters;
raising an exception is modelled by `Except.error`.
-/

namespace Sohee

/-- Python str.lower(), code point by code point. -/
def pyLower (s : String) : String := String.mk (s.data.map Char.toLower)

/-- Python sep.join(list). -/
def pyJoin (sep : String) : List String → String
  | [] => ""
  | [s] => s
  | s :: rest => s ++ sep ++ pyJoin sep rest

/-- Python `x in l` membership test on a list of strings. -/
def pyIn (x : String) : List String → Bool
  | [] => false
  | y :: ys => if x = y then true else pyIn x ys

/-- Python len(s) for a str (number of code points). -/
def pyLen (s : String) : Nat := s.data.length

/-- Python s[:n] slicing on a str. -/
def pySlice (s : String) (n : Nat) : String := String.mk (s.data.take n)

/-- Python str.strip(): drop whitespace from both ends. -/
def pyStrip (s : String) : String :=
  String.mk (((s.data.dropWhile Char.isWhitespace).reverse.dropWhile
    Char.isWhitespace).reverse)

/-- Occurrence test for a non-empty pattern, scanning left to right:
models Python `sub in s` (for non-empty sub) at the character level. -/
def hasSub (sep : List Char) : List Char → Bool
  | [] => false
  | c :: rest => sep.isPrefixOf (c :: rest) || hasSub sep rest

/-- Python `sub in s` on strings (used with non-empty literals only). -/
def pyContains (s sub : String) : Bool := hasSub sub.data s.data

/-- VALID_PERIODS from src/main.py line 28. -/
def VALID_PERIODS : List String :=
  ["7day", "1month", "3month", "6month", "12month", "overall"]

/-- DEFAULT_PERIOD from src/main.py line 29. -/
def DEFAULT_PERIOD : String := "7day"

/-- The helper _get_user_and_period of src/main.py lines 104-114.
`saved` is context.user_data.get('lastfm_user'), `args` is context.args.
If the last argument, lowercased, is a valid period it is popped and used
as the period; any remaining arguments joined by spaces become the
username, else the saved username is kept. -/
def getUserAndPeriod (args : List String) (saved : Option String) :
    Option String × String :=
  match args.getLast? with
  | none => (saved, DEFAULT_PERIOD)
  | some last =>
    if pyIn (pyLower last) VALID_PERIODS then
      let rest := args.dropLast
      (if rest.isEmpty then saved else some (pyJoin " " rest), pyLower last)
    else
      (some (pyJoin " " args), DEFAULT_PERIOD)

theorem pyIn_mem {x : String} : ∀ {l : List String}, pyIn x l = true → x ∈ l
  | [], h => by simp [pyIn] at h
  | y :: ys, h => by
    by_cases hxy : x = y
    · exact hxy ▸ List.mem_cons_self x ys
    · simp only [pyIn, if_neg hxy] at h
      exact List.mem_cons_of_mem y (pyIn_mem h)

theorem valid_periods_lower_fixed : ∀ s ∈ VALID_PERIODS, pyLower s = s := by
  decide

/-- C4: the last argument is consumed as the period exactly when its
lowercased form is in the six-token enumeration; remaining arguments
joined with spaces override the saved username; with no remaining
arguments the saved username is returned; the period defaults to "7day"
when no period token is given. -/
theorem parse_user_and_period_spec (args : List String) (saved : Option String) :
    (args = [] → getUserAndPeriod args saved = (saved, "7day"))
    ∧ (∀ last, args.getLast? = some last →
        (pyIn (pyLower last) VALID_PERIODS = true →
          (args.dropLast ≠ [] →
            getUserAndPeriod args saved =
              (some (pyJoin " " args.dropLast), pyLower last))
          ∧ (args.dropLast = [] →
            getUserAndPeriod args saved = (saved, pyLower last)))
        ∧ (pyIn (pyLower last) VALID_PERIODS = false →
          getUserAndPeriod args saved = (some (pyJoin " " args), "7day"))) := by
  constructor
  · intro h
    subst h
    rfl
  · intro last hlast
    constructor
    · intro hper
      constructor
      · intro hrest
        simp [getUserAndPeriod, hlast, hper, List.isEmpty_iff, hrest]
      · intro hrest
        simp [getUserAndPeriod, hlast, hper, List.isEmpty_iff, hrest]
    · intro hper
      simp [getUserAndPeriod, hlast, hper, DEFAULT_PERIOD]

/-- Witness for C4 at the spec's own example: arguments ["1month"] with
saved preference "Alice" yield ("Alice", "1month"). -/
theorem parse_user_and_period_spec_witness :
    getUserAndPeriod ["1month"] (some "Alice") = (some "Alice", "1month") := by
  have h := (parse_user_and_period_spec ["1month"] (some "Alice")).2 "1month" rfl
  have h2 := (h.1 (by decide)).2 rfl
  rw [h2]
  decide

/-- C10: the period component returned by _get_user_and_period is always a
member of the six lowercase period tokens (so it is "7day" by default or a
lowercase token), it is fixed by lowercasing, and when the last argument
matches case-insensitively the returned period is its lowercased form. -/
theorem period_always_lowercase (args : List String) (saved : Option String) :
    pyIn (getUserAndPeriod args saved).2 VALID_PERIODS = true
    ∧ pyLower (getUserAndPeriod args saved).2 = (getUserAndPeriod args saved).2
    ∧ (∀ last, args.getLast? = some last →
        pyIn (pyLower last) VALID_PERIODS = true →
        (getUserAndPeriod args saved).2 = pyLower last) := by
  refine ⟨?_, ?_, ?_⟩
  · unfold getUserAndPeriod
    match h : args.getLast? with
    | none => exact (by decide : pyIn DEFAULT_PERIOD VALID_PERIODS = true)
    | some last =>
      by_cases hper : pyIn (pyLower last) VALID_PERIODS
      · simp [hper]
      · simp [hper]
        decide
  · unfold getUserAndPeriod
    match h : args.getLast? with
    | none => exact (by decide : pyLower DEFAULT_PERIOD = DEFAULT_PERIOD)
    | some last =>
      by_cases hper : pyIn (pyLower last) VALID_PERIODS
      · simp only [hper, if_true]
        exact valid_periods_lower_fixed _ (pyIn_mem hper)
      · simp [hper]
        decide
  · intro last hlast hper
    simp [getUserAndPeriod, hlast, hper]

/-- Witness for C10: the argument "1MONTH" is matched case-insensitively
and the returned period is its lowercased form "1month". -/
theorem period_always_lowercase_witness :
    (getUserAndPeriod ["1MONTH"] none).2 = "1month" := by
  have h := (period_always_lowercase ["1MONTH"] none).2.2 "1MONTH" rfl (by decide)
  rw [h]
  decide

/-- Python s.split(sep, 1) for a non-empty sep: find the first occurrence
of sep and return the parts before and after it, or none when sep does
not occur. Models the combination of the `in` test and the split in
_parse_artist_item_query (src/main.py lines 116-122). -/
def splitFirst (sep : List Char) : List Char → Option (List Char × List Char)
  | [] => none
  | c :: rest =>
    if sep.isPrefixOf (c :: rest) then
      some ([], (c :: rest).drop sep.length)
    else
      match splitFirst sep rest with
      | some (a, b) => some (c :: a, b)
      | none => none

/-- The three-character delimiter " - " used by _parse_artist_item_query. -/
def SEP : List Char := [' ', '-', ' ']

/-- The helper _parse_artist_item_query of src/main.py lines 116-122:
join the arguments with spaces, return (None, None) when " - " is absent,
otherwise split on its first occurrence and strip both halves. -/
def parseArtistItemQuery (args : List String) : Option String × Option String :=
  let query := pyJoin " " args
  match splitFirst SEP query.data with
  | none => (none, none)
  | some (a, b) => (some (pyStrip (String.mk a)), some (pyStrip (String.mk b)))

theorem isPrefixOf_exists {sep l : List Char} (h : sep.isPrefixOf l = true) :
    ∃ t, l = sep ++ t := by
  induction sep generalizing l with
  | nil => exact ⟨l, rfl⟩
  | cons a as ih =>
    cases l with
    | nil => simp [List.isPrefixOf] at h
    | cons b bs =>
      simp only [List.isPrefixOf, Bool.and_eq_true, beq_iff_eq] at h
      obtain ⟨t, ht⟩ := ih h.2
      exact ⟨t, by rw [h.1, List.cons_append, ← ht]⟩

theorem splitFirst_some {sep : List Char} :
    ∀ {xs a b : List Char}, splitFirst sep xs = some (a, b) →
      xs = a ++ sep ++ b := by
  intro xs
  induction xs with
  | nil => intro a b h; simp [splitFirst] at h
  | cons c rest ih =>
    intro a b h
    match hp : sep.isPrefixOf (c :: rest) with
    | true =>
      simp only [splitFirst, hp, if_true, Option.some.injEq, Prod.mk.injEq] at h
      obtain ⟨t, ht⟩ := isPrefixOf_exists hp
      rw [← h.1, List.nil_append, ← h.2, ht, List.drop_left]
    | false =>
      simp only [splitFirst, hp, Bool.false_eq_true, if_false] at h
      match hrec : splitFirst sep rest with
      | some (a', b') =>
        rw [hrec] at h
        simp only [Option.some.injEq, Prod.mk.injEq] at h
        have hrest := ih hrec
        rw [← h.1, ← h.2, List.cons_append, List.cons_append, ← hrest]
      | none =>
        rw [hrec] at h
        simp at h

theorem splitFirst_of_first_occurrence {sep : List Char} (hsep : sep ≠ []) :
    ∀ (xs : List Char) (i : Nat),
      sep.isPrefixOf (xs.drop i) = true →
      (∀ j, j < i → sep.isPrefixOf (xs.drop j) = false) →
      splitFirst sep xs = some (xs.take i, xs.drop (i + sep.length)) := by
  intro xs
  induction xs with
  | nil =>
    intro i hi _
    rw [List.drop_nil] at hi
    cases sep with
    | nil => exact absurd rfl hsep
    | cons a as => simp [List.isPrefixOf] at hi
  | cons c rest ih =>
    intro i hi hmin
    cases i with
    | zero =>
      rw [List.drop_zero] at hi
      simp only [splitFirst, hi, if_true, List.take_zero, Nat.zero_add,
        List.drop_zero]
    | succ i' =>
      have h0 : sep.isPrefixOf ((c :: rest).drop 0) = false :=
        hmin 0 (Nat.succ_pos i')
      rw [List.drop_zero] at h0
      have hi' : sep.isPrefixOf (rest.drop i') = true := by
        rwa [List.drop_succ_cons] at hi
      have hmin' : ∀ j, j < i' → sep.isPrefixOf (rest.drop j) = false := by
        intro j hj
        have := hmin (j + 1) (Nat.succ_lt_succ hj)
        rwa [List.drop_succ_cons] at this
      have hrec := ih i' hi' hmin'
      have harith : i' + 1 + sep.length = (i' + sep.length) + 1 := by omega
      simp only [splitFirst, h0, Bool.false_eq_true, if_false, hrec,
        List.take_succ_cons, harith, List.drop_succ_cons]

/-- C5: parseArtistItem joins the arguments with spaces; when the literal
delimiter " - " is absent from the joined string the result is the null
pair (none, none), and when it occurs first at index i the result is the
two halves around that occurrence, both stripped of surrounding
whitespace. -/
theorem parse_artist_item_first_split (args : List String) :
    ((¬ ∃ a b, (pyJoin " " args).data = a ++ SEP ++ b) →
      parseArtistItemQuery args = (none, none))
    ∧ (∀ i : Nat, SEP.isPrefixOf ((pyJoin " " args).data.drop i) = true →
        (∀ j, j < i → SEP.isPrefixOf ((pyJoin " " args).data.drop j) = false) →
        parseArtistItemQuery args =
          (some (pyStrip (String.mk ((pyJoin " " args).data.take i))),
           some (pyStrip (String.mk ((pyJoin " " args).data.drop (i + 3)))))) := by
  constructor
  · intro hno
    match hsplit : splitFirst SEP (pyJoin " " args).data with
    | none => simp only [parseArtistItemQuery, hsplit]
    | some (a, b) =>
      exact absurd ⟨a, b, splitFirst_some hsplit⟩ hno
  · intro i hi hmin
    have h := splitFirst_of_first_occurrence (by decide : SEP ≠ [])
      (pyJoin " " args).data i hi hmin
    simp only [parseArtistItemQuery, h]
    rfl

/-- Witness for C5 at the spec's own example: ["Pink", "Floyd", "-",
"Money"] joins to "Pink Floyd - Money" whose first " - " occurrence is at
index 10, giving ("Pink Floyd", "Money"); and ["NoDelimiterHere"] gives
the null pair. -/
theorem parse_artist_item_first_split_witness :
    parseArtistItemQuery ["Pink", "Floyd", "-", "Money"] =
      (some "Pink Floyd", some "Money") := by
  have h := (parse_artist_item_first_split ["Pink", "Floyd", "-", "Money"]).2
    10 (by decide) (by decide)
  rw [h]
  decide

/-- Outcome of one Telegram send attempt: success, or a TelegramError
carrying the platform's error message. -/
inductive SendOutcome where
  | ok : SendOutcome
  | telegramError : String → SendOutcome
deriving DecidableEq

/-- Predetermined outcomes for each potential send site inside
_send_with_photo_or_text: the reply_photo call, the first reply_text
call, the truncated-resend reply_text call and the generic-error
reply_text call. -/
structure Platform where
  photoOutcome : SendOutcome
  textOutcome : SendOutcome
  truncOutcome : SendOutcome
  genericOutcome : SendOutcome
deriving DecidableEq

/-- A message successfully delivered to the chat. -/
inductive Sent where
  | photo : String → String → Sent
  | text : String → Sent
deriving DecidableEq

/-- TEXT_LIMIT from src/main.py line 126. -/
def TEXT_LIMIT : Nat := 4096

/-- The truncation marker appended at src/main.py line 143. -/
def TRUNC_MARKER : String := "\n\n... [MENSAGEM TRUNCADA]"

/-- The generic formatting-error reply at src/main.py line 147. -/
def FORMAT_ERROR_MSG : String := "Ocorreu um erro ao formatar esta resposta."

/-- The plain-text fallback of _send_with_photo_or_text (src/main.py
lines 138-147): try reply_text(caption); on a TelegramError whose
lowercased message contains "message is too long", resend the caption
truncated to TEXT_LIMIT - 25 code points with the truncation marker
appended; on any other TelegramError, log and send the generic
formatting-error message. The resend and the generic-error send are not
themselves protected, so their failures propagate (Except.error). -/
def sendTextFallback (p : Platform) (caption : String) : Except String Sent :=
  match p.textOutcome with
  | .ok => .ok (.text caption)
  | .telegramError e =>
    if pyContains (pyLower e) "message is too long" then
      match p.truncOutcome with
      | .ok => .ok (.text (pySlice caption (TEXT_LIMIT - 25) ++ TRUNC_MARKER))
      | .telegramError e2 => .error e2
    else
      match p.genericOutcome with
      | .ok => .ok (.text FORMAT_ERROR_MSG)
      | .telegramError e2 => .error e2

/-- The function _send_with_photo_or_text of src/main.py lines 124-147:
when an image URL is present (non-empty), try reply_photo with the
caption; on a TelegramError fall through to the plain-text fallback. -/
def sendWithPhotoOrText (p : Platform) (imageUrl : Option String)
    (caption : String) : Except String Sent :=
  match imageUrl with
  | some url =>
    if url = "" then sendTextFallback p caption
    else
      match p.photoOutcome with
      | .ok => .ok (.photo url caption)
      | .telegramError _ => sendTextFallback p caption
  | none => sendTextFallback p caption

/-- Counterexample to C2 as stated: when the first plain-text send fails
with the platform's too-long error and the truncated resend itself fails,
the exception propagates out of _send_with_photo_or_text. -/
theorem send_composer_raise_counterexample :
    sendWithPhotoOrText
      ⟨SendOutcome.ok, SendOutcome.telegramError "Bad Request: message is too long",
       SendOutcome.telegramError "Timed out", SendOutcome.ok⟩
      none "caption" = Except.error "Timed out" := by
  rfl

/-- C2 (amended): _send_with_photo_or_text never raises provided its two
recovery sends (the truncated resend and the generic-error send) succeed;
failures of the photo attempt and of the first plain-text attempt never
propagate. -/
theorem send_composer_no_raise (p : Platform) (imageUrl : Option String)
    (caption : String) (h1 : p.truncOutcome = SendOutcome.ok)
    (h2 : p.genericOutcome = SendOutcome.ok) :
    ∀ e, sendWithPhotoOrText p imageUrl caption ≠ Except.error e := by
  intro e
  have hfall : ∀ e', sendTextFallback p caption ≠ Except.error e' := by
    intro e'
    unfold sendTextFallback
    match htext : p.textOutcome with
    | .ok => simp
    | .telegramError msg =>
      by_cases hlong : pyContains (pyLower msg) "message is too long"
      · simp [hlong, h1]
      · simp [hlong, h2]
  unfold sendWithPhotoOrText
  match imageUrl with
  | none => exact hfall e
  | some url =>
    by_cases hurl : url = ""
    · simp only [hurl, if_true]
      exact hfall e
    · simp only [hurl, if_false]
      match p.photoOutcome with
      | .ok => simp
      | .telegramError msg => exact hfall e

/-- Witness for C2 (amended): with all sends succeeding, a text-only call
does not raise. -/
theorem send_composer_no_raise_witness :
    sendWithPhotoOrText
      ⟨SendOutcome.ok, SendOutcome.ok, SendOutcome.ok, SendOutcome.ok⟩
      none "hello" ≠ Except.error "boom" :=
  send_composer_no_raise
    ⟨SendOutcome.ok, SendOutcome.ok, SendOutcome.ok, SendOutcome.ok⟩
    none "hello" rfl rfl "boom"

/-- C3: whenever the plain-text send fails with the platform's too-long
error, the caption is resent truncated to TEXT_LIMIT - 25 = 4071 code
points with the fixed truncation marker appended; a caption of exactly
5000 code points is in particular cut to exactly 4071 code points before
the marker. -/
theorem truncation_resend (p : Platform) (imageUrl : Option String)
    (caption e : String)
    (hphoto : imageUrl = none ∨ ∃ m, p.photoOutcome = SendOutcome.telegramError m)
    (htext : p.textOutcome = SendOutcome.telegramError e)
    (hlong : pyContains (pyLower e) "message is too long" = true)
    (hres : p.truncOutcome = SendOutcome.ok) :
    sendWithPhotoOrText p imageUrl caption =
      Except.ok (Sent.text (pySlice caption (4096 - 25) ++ TRUNC_MARKER))
    ∧ (pyLen caption = 5000 → pyLen (pySlice caption (4096 - 25)) = 4071) := by
  constructor
  · have hfall : sendTextFallback p caption =
        Except.ok (Sent.text (pySlice caption (4096 - 25) ++ TRUNC_MARKER)) := by
      unfold sendTextFallback
      rw [htext]
      simp only [hlong, if_true, hres]
      rfl
    unfold sendWithPhotoOrText
    match imageUrl, hphoto with
    | none, _ => exact hfall
    | some url, hphoto =>
      by_cases hurl : url = ""
      · simp only [hurl, if_true]
        exact hfall
      · simp only [hurl, if_false]
        rcases hphoto with hctr | ⟨m, hm⟩
        · exact absurd hctr (by simp)
        · rw [hm]
          exact hfall
  · intro h5000
    simp only [pyLen, pySlice] at h5000 ⊢
    rw [List.length_take, h5000]
    decide

/-- Witness for C3: a concrete too-long failure followed by a successful
resend delivers the truncated caption with the marker. -/
theorem truncation_resend_witness :
    sendWithPhotoOrText
      ⟨SendOutcome.ok, SendOutcome.telegramError "Message is too long",
       SendOutcome.ok, SendOutcome.ok⟩
      none "abc" =
      Except.ok (Sent.text (pySlice "abc" (4096 - 25) ++ TRUNC_MARKER)) :=
  (truncation_resend
    ⟨SendOutcome.ok, SendOutcome.telegramError "Message is too long",
     SendOutcome.ok, SendOutcome.ok⟩
    none "abc" "Message is too long" (Or.inl rfl) rfl (by decide) rfl).1

/-- The Spotify query string built by blocking_spotify_search
(src/main.py line 165). -/
def spotifyQuery (artistName itemName itemType : String) : String :=
  "artist:\"" ++ artistName ++ "\" " ++ itemType ++ ":\"" ++ itemName ++ "\""

/-- The protected body of blocking_spotify_search (src/main.py lines
164-183) before its exception handler: dispatch on the item type and
issue one catalog search, whose outcome is given by the environment
`search` (ok with an optional extracted image URL, or error when the
call or the result extraction raises). An unrecognized item type falls
through to `return None`. -/
def blockingSpotifySearchRaw (search : String → String → Except String (Option String))
    (artistName itemName itemType : String) : Except String (Option String) :=
  if itemType = "track" then
    search "track" (spotifyQuery artistName itemName "track")
  else if itemType = "album" then
    search "album" (spotifyQuery artistName itemName "album")
  else if itemType = "artist" then
    search "artist" ("artist:\"" ++ artistName ++ "\"")
  else
    Except.ok none

/-- blocking_spotify_search with its catch-all handler (src/main.py lines
180-182): any exception is caught, logged, and turned into None. -/
def blockingSpotifySearch (search : String → String → Except String (Option String))
    (artistName itemName itemType : String) : Option String :=
  match blockingSpotifySearchRaw search artistName itemName itemType with
  | .ok r => r
  | .error _ => none

/-- The resolver _get_spotify_image_url of src/main.py lines 160-195: the
thread-offloaded search never raises, and the outer try/except also
converts any failure to None, so the caller always receives Except.ok. -/
def getSpotifyImageUrl (search : String → String → Except String (Option String))
    (artistName itemName itemType : String) : Except String (Option String) :=
  Except.ok (blockingSpotifySearch search artistName itemName itemType)

/-- C8: for every artist name, item name and type tag, no exception from
the catalog search propagates out of the Image Resolver, and a raising
search is converted to the "not found" result (None). -/
theorem spotify_search_never_propagates
    (search : String → String → Except String (Option String))
    (artistName itemName itemType : String) :
    (∀ e, getSpotifyImageUrl search artistName itemName itemType ≠
      Except.error e)
    ∧ (∀ e, blockingSpotifySearchRaw search artistName itemName itemType =
        Except.error e →
        getSpotifyImageUrl search artistName itemName itemType =
          Except.ok none) := by
  constructor
  · intro e
    simp [getSpotifyImageUrl]
  · intro e herr
    simp [getSpotifyImageUrl, blockingSpotifySearch, herr]

/-- Witness for C8: a catalog search that raises for every query yields
Except.ok none from the resolver. -/
theorem spotify_search_never_propagates_witness :
    getSpotifyImageUrl (fun _ _ => Except.error "connection reset")
      "Pink Floyd" "Money" "track" = Except.ok none :=
  (spotify_search_never_propagates (fun _ _ => Except.error "connection reset")
    "Pink Floyd" "Money" "track").2 "connection reset" rfl

/-- The three Last.fm artwork resolution tiers, largest first
(pylast.SIZE_MEGA, SIZE_EXTRALARGE, SIZE_LARGE). -/
inductive LfmSize where
  | mega : LfmSize
  | extralarge : LfmSize
  | large : LfmSize
deriving DecidableEq

/-- The nested try/except chain of _get_lastfm_image_fallback
(src/main.py lines 197-213), instrumented with the list of tiers
attempted: try mega; on exception try extralarge; on exception try
large; on exception log and return None. The environment `g` gives each
tier's outcome (a URL, or a raised exception). -/
def lastfmFallbackTrace (g : LfmSize → Except String String) :
    Option String × List LfmSize :=
  match g .mega with
  | .ok u => (some u, [.mega])
  | .error _ =>
    match g .extralarge with
    | .ok u => (some u, [.mega, .extralarge])
    | .error _ =>
      match g .large with
      | .ok u => (some u, [.mega, .extralarge, .large])
      | .error _ => (none, [.mega, .extralarge, .large])

/-- The result of _get_lastfm_image_fallback: the image URL of the first
tier that succeeds, or None when all three tiers raise. -/
def getLastfmImageFallback (g : LfmSize → Except String String) :
    Option String :=
  (lastfmFallbackTrace g).1

/-- C9: the fallback tries the tiers in decreasing order mega,
extralarge, large; it returns the first tier that succeeds without
attempting the later tiers; and it returns None exactly when all three
tiers fail. -/
theorem lastfm_fallback_tiers (g : LfmSize → Except String String) :
    (∀ u, g .mega = Except.ok u →
      lastfmFallbackTrace g = (some u, [.mega]))
    ∧ (∀ e u, g .mega = Except.error e → g .extralarge = Except.ok u →
      lastfmFallbackTrace g = (some u, [.mega, .extralarge]))
    ∧ (∀ e e' u, g .mega = Except.error e → g .extralarge = Except.error e' →
      g .large = Except.ok u →
      lastfmFallbackTrace g = (some u, [.mega, .extralarge, .large]))
    ∧ (getLastfmImageFallback g = none ↔
      (∃ e, g .mega = Except.error e) ∧ (∃ e, g .extralarge = Except.error e)
        ∧ (∃ e, g .large = Except.error e)) := by
  refine ⟨?_, ?_, ?_, ?_⟩
  · intro u h
    simp [lastfmFallbackTrace, h]
  · intro e u h1 h2
    simp [lastfmFallbackTrace, h1, h2]
  · intro e e' u h1 h2 h3
    simp [lastfmFallbackTrace, h1, h2, h3]
  · unfold getLastfmImageFallback lastfmFallbackTrace
    match h1 : g .mega with
    | .ok u => simp [h1]
    | .error e1 =>
      match h2 : g .extralarge with
      | .ok u => simp [h2]
      | .error e2 =>
        match h3 : g .large with
        | .ok u => simp [h3]
        | .error e3 => simp [h1, h2, h3]

/-- Witness for C9: when the mega tier raises and the extralarge tier
succeeds, the extralarge URL is returned and the large tier is never
attempted. -/
theorem lastfm_fallback_tiers_witness :
    lastfmFallbackTrace
      (fun s => match s with
        | .mega => Except.error "no mega image"
        | .extralarge => Except.ok "http:u"
        | .large => Except.error "unused") =
      (some "http:u", [LfmSize.mega, LfmSize.extralarge]) :=
  (lastfm_fallback_tiers
    (fun s => match s with
      | .mega => Except.error "no mega image"
      | .extralarge => Except.ok "http:u"
      | .large => Except.error "unused")).2.1 "no mega image" "http:u" rfl rfl

/-- One subscriber entry of the per-chat registry: the dict stored at
context.chat_data['lastfm_users'][telegram_user_id] by join_lastfm
(src/main.py lines 572-576). -/
structure GroupEntry where
  lastfm_user : String
  first_name : String
  username : Option String
deriving DecidableEq

/-- A chat registry: a Python dict keyed by the Telegram user id,
modelled as an insertion-ordered association list with unique keys. -/
def Registry := List (Nat × GroupEntry)

/-- Python dict assignment d[k] = v: replace the value at an existing
key in place, or append a new key at the end. -/
def dictInsert (k : Nat) (v : GroupEntry) : Registry → Registry
  | [] => [(k, v)]
  | (k', v') :: rest =>
    if k = k' then (k, v) :: rest else (k', v') :: dictInsert k v rest

/-- Python dict lookup d.get(k). -/
def dictGet (k : Nat) : Registry → Option GroupEntry
  | [] => none
  | (k', v') :: rest => if k = k' then some v' else dictGet k rest

/-- One invocation of join_lastfm (src/main.py lines 554-586) as it
affects the chat registry. -/
structure JoinRequest where
  saved : Option String
  user_id : Nat
  first_name : String
  username : Option String

/-- Effect of join_lastfm on the registry: when the caller has no saved
scrobble username the registration is refused (registry unchanged),
otherwise the entry for the caller's Telegram id is upserted. -/
def joinStep (m : Registry) (r : JoinRequest) : Registry :=
  match r.saved with
  | none => m
  | some u => dictInsert r.user_id ⟨u, r.first_name, r.username⟩ m

/-- A sequence of registrations applied to the initially empty chat
registry (the lazy initialization of _get_group_lastfm_users,
src/main.py lines 149-156). -/
def registerSeq (regs : List JoinRequest) : Registry :=
  regs.foldl joinStep []

/-- The entry a successful registration writes, none when refused. -/
def regEntry (r : JoinRequest) : Option GroupEntry :=
  r.saved.map (fun u => ⟨u, r.first_name, r.username⟩)

theorem dictGet_dictInsert (k k' : Nat) (v : GroupEntry) :
    ∀ m : Registry, dictGet k (dictInsert k' v m) =
      if k = k' then some v else dictGet k m := by
  intro m
  induction m with
  | nil =>
    by_cases h : k = k' <;> simp [dictInsert, dictGet, h]
  | cons p rest ih =>
    obtain ⟨k₁, v₁⟩ := p
    by_cases h1 : k' = k₁
    · subst h1
      by_cases h2 : k = k' <;> simp [dictInsert, dictGet, h2]
    · by_cases h2 : k = k₁
      · subst h2
        have hne : ¬k = k' := fun hc => h1 (hc ▸ rfl)
        simp [dictInsert, h1, dictGet, hne]
      · simp [dictInsert, h1, dictGet, h2, ih]

theorem dictInsert_keys_mem (k k' : Nat) (v : GroupEntry) :
    ∀ m : Registry, k' ∈ (dictInsert k v m).map Prod.fst ↔
      k' = k ∨ k' ∈ m.map Prod.fst := by
  intro m
  induction m with
  | nil => simp [dictInsert]
  | cons p rest ih =>
    obtain ⟨k₁, v₁⟩ := p
    by_cases h : k = k₁
    · subst h
      simp [dictInsert]
    · simp only [dictInsert, h, if_false, List.map_cons, List.mem_cons, ih]
      tauto

theorem dictInsert_keys_nodup (k : Nat) (v : GroupEntry) :
    ∀ m : Registry, (m.map Prod.fst).Nodup →
      ((dictInsert k v m).map Prod.fst).Nodup := by
  intro m
  induction m with
  | nil => intro _; simp [dictInsert]
  | cons p rest ih =>
    obtain ⟨k₁, v₁⟩ := p
    intro hnd
    simp only [List.map_cons, List.nodup_cons] at hnd
    by_cases h : k = k₁
    · subst h
      simp only [dictInsert, if_true, List.map_cons, List.nodup_cons]
      exact hnd
    · simp only [dictInsert, h, if_false, List.map_cons, List.nodup_cons]
      refine ⟨?_, ih hnd.2⟩
      rw [dictInsert_keys_mem]
      rintro (hc | hc)
      · exact h (hc ▸ rfl)
      · exact hnd.1 hc

theorem joinStep_keys_nodup (m : Registry) (r : JoinRequest)
    (h : (m.map Prod.fst).Nodup) : ((joinStep m r).map Prod.fst).Nodup := by
  unfold joinStep
  match r.saved with
  | none => exact h
  | some u => exact dictInsert_keys_nodup _ _ m h

theorem dictGet_foldl (k : Nat) :
    ∀ (regs : List JoinRequest) (m : Registry),
      dictGet k (regs.foldl joinStep m) =
        match (regs.filter
            (fun r => r.saved.isSome && r.user_id == k)).getLast? with
        | some r => regEntry r
        | none => dictGet k m := by
  intro regs
  induction regs with
  | nil => intro m; rfl
  | cons r rest ih =>
    intro m
    rw [List.foldl_cons, ih (joinStep m r), List.filter_cons]
    by_cases hpred : (r.saved.isSome && r.user_id == k) = true
    · simp only [hpred, if_true]
      match hlast : (rest.filter
          (fun r => r.saved.isSome && r.user_id == k)).getLast? with
      | some r' =>
        have hne : rest.filter (fun r => r.saved.isSome && r.user_id == k) ≠ [] := by
          intro hc
          rw [hc] at hlast
          exact absurd hlast (by simp)
        rw [List.getLast?_cons, hlast]
        rfl
      | none =>
        have hnil : rest.filter (fun r => r.saved.isSome && r.user_id == k) = [] :=
          List.getLast?_eq_none_iff.mp hlast
        rw [List.getLast?_cons, hlast]
        simp only [Option.getD_none]
        simp only [Bool.and_eq_true, Option.isSome_iff_exists, beq_iff_eq] at hpred
        obtain ⟨⟨u, hu⟩, hid⟩ := hpred
        unfold joinStep
        rw [hu, hid]
        rw [dictGet_dictInsert]
        simp [regEntry, hu]
    · have hpred' : (r.saved.isSome && r.user_id == k) = false := by
        revert hpred
        cases r.saved.isSome && r.user_id == k <;> simp
      simp only [hpred', Bool.false_eq_true, if_false]
      match hlast : (rest.filter
          (fun r => r.saved.isSome && r.user_id == k)).getLast? with
      | some r' => rw [hlast]
      | none =>
        have : dictGet k (joinStep m r) = dictGet k m := by
          unfold joinStep
          match hs : r.saved with
          | none => rfl
          | some u =>
            rw [dictGet_dictInsert]
            have : ¬k = r.user_id := by
              intro hc
              rw [hs] at hpred'
              simp [hc] at hpred'
            simp [this]
        rw [this]

/-- C7: after any sequence of registrations starting from the empty chat
registry, the registry maps each Telegram user id to at most one entry,
and the entry at an id is exactly the one written by the latest
successful registration for that id (none when there was none). -/
theorem group_registry_upsert (regs : List JoinRequest) :
    ((registerSeq regs).map Prod.fst).Nodup
    ∧ ∀ k, dictGet k (registerSeq regs) =
        ((regs.filter
          (fun r => r.saved.isSome && r.user_id == k)).getLast?).bind regEntry := by
  constructor
  · unfold registerSeq
    have : ∀ (rs : List JoinRequest) (m : Registry), (m.map Prod.fst).Nodup →
        ((rs.foldl joinStep m).map Prod.fst).Nodup := by
      intro rs
      induction rs with
      | nil => intro m h; exact h
      | cons r rest ih =>
        intro m h
        exact ih (joinStep m r) (joinStep_keys_nodup m r h)
    exact this regs [] (by simp)
  · intro k
    unfold registerSeq
    rw [dictGet_foldl]
    match hlast : (regs.filter
        (fun r => r.saved.isSome && r.user_id == k)).getLast? with
    | some r' => rw [hlast]; rfl
    | none => rw [hlast]; rfl

/-- Outcome of one subscriber's now-playing lookup in now_listening
(src/main.py lines 618-637): a current play (title and artist), no
current play, a pylast.WSError with a message, or any other exception. -/
inductive NpOutcome where
  | playing : String → String → NpOutcome
  | notPlaying : NpOutcome
  | wsError : String → NpOutcome
  | unexpected : String → NpOutcome

/-- The display name built at src/main.py lines 608-616: first name,
followed by the @handle when one exists. -/
def telegramDisplay (u : GroupEntry) : String :=
  match u.username with
  | some un => "*" ++ u.first_name ++ "* (@" ++ un ++ ")"
  | none => "*" ++ u.first_name ++ "*"

/-- One iteration of the subscriber loop of now_listening: the
accumulator is the message lines so far and listening_count. A current
play appends a listening line and increments the count; a WSError whose
lowercased message contains "user not found" appends an inline not-found
line; any other WSError and any unexpected exception are logged and
append nothing. -/
def nlStep (env : String → NpOutcome) (acc : List String × Nat)
    (u : GroupEntry) : List String × Nat :=
  match env u.lastfm_user with
  | .playing title artistName =>
    (acc.1 ++ ["\n• " ++ telegramDisplay u ++ ":\n   " ++ title ++ " - *"
      ++ artistName ++ "*"], acc.2 + 1)
  | .notPlaying => acc
  | .wsError m =>
    if pyContains (pyLower m) "user not found" then
      (acc.1 ++ ["\n• " ++ telegramDisplay u
        ++ ": ❌ Usuário Last.fm não encontrado."], acc.2)
    else acc
  | .unexpected _ => acc

/-- The subscriber loop of now_listening run over the chat's subscriber
entries, starting from the report header. -/
def nowListeningBody (env : String → NpOutcome) (subs : List GroupEntry) :
    List String × Nat :=
  subs.foldl (nlStep env) (["🎧 *Now Listening* do Grupo:"], 0)

/-- Specification-side description of one subscriber's independent
contribution to the report: a listening line on a current play, an
inline not-found line on a "user not found" WSError, and no line
otherwise. Compared against the loop in the C6 theorem. -/
def nlLine (env : String → NpOutcome) (u : GroupEntry) : Option String :=
  match env u.lastfm_user with
  | .playing title artistName =>
    some ("\n• " ++ telegramDisplay u ++ ":\n   " ++ title ++ " - *"
      ++ artistName ++ "*")
  | .notPlaying => none
  | .wsError m =>
    if pyContains (pyLower m) "user not found" then
      some ("\n• " ++ telegramDisplay u ++ ": ❌ Usuário Last.fm não encontrado.")
    else none
  | .unexpected _ => none

/-- Whether a lookup outcome is a current play. -/
def isPlayingOutcome : NpOutcome → Bool
  | .playing _ _ => true
  | _ => false

theorem nl_foldl (env : String → NpOutcome) :
    ∀ (subs : List GroupEntry) (acc : List String) (n : Nat),
      subs.foldl (nlStep env) (acc, n) =
        (acc ++ subs.filterMap (nlLine env),
         n + (subs.filter (fun u => isPlayingOutcome (env u.lastfm_user))).length) := by
  intro subs
  induction subs with
  | nil => intro acc n; simp
  | cons u rest ih =>
    intro acc n
    rw [List.foldl_cons]
    match henv : env u.lastfm_user with
    | .playing title artistName =>
      simp only [nlStep, henv, ih, List.filterMap_cons, nlLine, henv,
        List.filter_cons, isPlayingOutcome, henv, if_true]
      rw [Prod.mk.injEq]
      constructor
      · simp
      · simp only [List.length_cons]
        omega
    | .notPlaying =>
      simp only [nlStep, henv, ih, List.filterMap_cons, nlLine, henv,
        List.filter_cons, isPlayingOutcome]
      simp
    | .wsError m =>
      by_cases hnf : pyContains (pyLower m) "user not found"
      · simp only [nlStep, henv, hnf, if_true, ih, List.filterMap_cons,
          nlLine, henv, List.filter_cons, isPlayingOutcome]
        simp [hnf]
      · simp only [nlStep, henv, hnf, if_false, ih, List.filterMap_cons,
          nlLine, henv, List.filter_cons, isPlayingOutcome]
        simp [hnf]
    | .unexpected m =>
      simp only [nlStep, henv, ih, List.filterMap_cons, nlLine, henv,
        List.filter_cons, isPlayingOutcome]
      simp

/-- C6: the report body equals the header followed by each subscriber's
independent contribution, in order: a listening line for a current play,
an inline not-found line for a "user not found" WSError, and no line for
any other error; the listening count is the number of subscribers with a
current play. One subscriber's outcome never affects another's line. -/
theorem now_listening_independent (env : String → NpOutcome)
    (subs : List GroupEntry) :
    (nowListeningBody env subs).1 =
      "🎧 *Now Listening* do Grupo:" :: subs.filterMap (nlLine env)
    ∧ (nowListeningBody env subs).2 =
      (subs.filter (fun u => isPlayingOutcome (env u.lastfm_user))).length := by
  unfold nowListeningBody
  rw [nl_foldl]
  constructor
  · simp
  · simp

/-- The per-user scrobble-count scan of artist_info (src/main.py lines
466-473): linear scan of the user's top-50 overall artists for the first
case-insensitive name match; the Python local user_playcount stays
unassigned (none) when no item matches. -/
def scanUserPlaycount (topItems : List (String × Nat)) (artistName : String) :
    Option Nat :=
  match topItems.find? (fun it => pyLower it.1 == pyLower artistName) with
  | some it => some it.2
  | none => none

/-- The scrobble-count computation of artist_info (src/main.py lines
466-478). The top-artists call may itself raise (topResult error); that
exception is caught and logged, leaving user_playcount unassigned. After
the try block the code runs `if user_playcount is None`, which reads the
local: when it was never assigned, Python raises UnboundLocalError,
which escapes artist_info (the generic handler then replies with the
unexpected-error message). The dead `user_playcount = 0` branch is
reachable only if the local were pre-initialized to None, which the code
never does. -/
def artistUserScrobbles (topResult : Except String (List (String × Nat)))
    (artistName : String) : Except String Nat :=
  match
    (match topResult with
     | .error _ => none
     | .ok items => scanUserPlaycount items artistName) with
  | some v => Except.ok v
  | none => Except.error "UnboundLocalError"

/-- C1 (code bug): when no artist in the user's top-50 overall list
matches case-insensitively, artist_info raises UnboundLocalError instead
of reporting zero; when a match exists, the first case-insensitive
match's weight is reported; and an exception from the top-artists call
also ends in UnboundLocalError. -/
theorem artist_info_unbound_local :
    artistUserScrobbles (Except.ok [("Radiohead", 100)]) "Muse" =
      Except.error "UnboundLocalError"
    ∧ artistUserScrobbles (Except.ok [("Radiohead", 100), ("MUSE", 42)]) "Muse" =
      Except.ok 42
    ∧ artistUserScrobbles (Except.error "network down") "Muse" =
      Except.error "UnboundLocalError" := by
  refine ⟨rfl, rfl, rfl⟩

end Sohee
